import Mathlib

/-!
Verification of the Product Store Service routing layer (`service/routes.py`)
against its natural-language specification.

The HTTP handlers are shallowly embedded: a request is the relevant query
parameters / headers / parsed payload, the persistent store is a `List Product`
threaded explicitly, and a handler returns `Except (Nat × String) α` where the
error carries the HTTP status code and the abort message.  Server-side log
messages are modelled as an explicit `List String` where a claim depends on
them.  The entity-model collaborator (`service/models.py`: `Product`,
`Category`, `deserialize`, the `find_by_*` queries) is not part of the routing
source; those definitions are modelled from the specification's description of
the collaborator contracts and are marked as such.
-/

namespace ProductStore

/-- Modelled from the spec: `Category` is "a fixed, named set known at build
time" of enumerated classifications (the spec's scenarios name `CLOTHS`);
the class itself lives in the absent `service/models.py`. -/
inductive Category where
  | UNKNOWN
  | CLOTHS
  | FOOD
  | HOUSEWARES
  | AUTOMOTIVE
  | TOOLS
  deriving DecidableEq, Repr

/-- Modelled from the spec: the explicit mapping from a string to an enumerated
category value, standing for the source's `getattr(Category, category)`
reflective lookup (design note 9 of the spec describes it exactly as such a
mapping returning an explicit "not found" result). -/
def categoryFromName : String → Option Category
  | "UNKNOWN" => some .UNKNOWN
  | "CLOTHS" => some .CLOTHS
  | "FOOD" => some .FOOD
  | "HOUSEWARES" => some .HOUSEWARES
  | "AUTOMOTIVE" => some .AUTOMOTIVE
  | "TOOLS" => some .TOOLS
  | _ => none

/-- Modelled from the spec: the Product record shape of the data model
(section 3): server-assigned integer `id`, required `name`, optional
`description`, required decimal `price`, required boolean `available`,
enumerated `category`. -/
structure Product where
  id : Nat
  name : String
  description : String
  price : Rat
  available : Bool
  category : Category
  deriving DecidableEq, Repr

/-- Modelled from the spec: the persistence collaborator is "a datastore
exposing create/read/update/delete plus attribute-filtered queries"; we model
the durable state as the list of stored products. -/
def Store := List Product

/-- Modelled from the spec: `find_by_name` is an attribute-filtered query by
exact name match ("simple equality/attribute filters", section 1). -/
def find_by_name (n : String) (store : List Product) : List Product :=
  store.filter (fun p => p.name = n)

/-- Modelled from the spec: `find_by_category`, equality filter on `category`. -/
def find_by_category (c : Category) (store : List Product) : List Product :=
  store.filter (fun p => p.category = c)

/-- Modelled from the spec: `find_by_availability`, equality filter on
`available`. -/
def find_by_availability (b : Bool) (store : List Product) : List Product :=
  store.filter (fun p => p.available = b)

/-- Modelled from the spec: `Product.find`, lookup of the record whose unique
`id` matches. -/
def find (product_id : Nat) (store : List Product) : Option Product :=
  store.find? (fun p => p.id = product_id)

/-- Modelled from the spec: `Product.update` persists the record in place,
replacing the stored record carrying the same id. -/
def updateStore (p : Product) (store : List Product) : List Product :=
  store.map (fun q => if q.id = p.id then p else q)

/-- A handler outcome: either an abort carrying (HTTP status, message), or a
success value.  Mirrors Flask's `abort(status, message)` control flow. -/
abbrev HandlerResult (α : Type) := Except (Nat × String) α

/-- Python truthiness of an optional string, as used by `if name:` /
`elif category:` in `list_products`: `None` and the empty string are falsy. -/
def truthy : Option String → Bool
  | none => false
  | some s => !s.isEmpty

/-- Python `str.strip()` whitespace set restricted to ASCII (space, tab,
newline, carriage return, vertical tab, form feed). -/
def pyIsSpace (c : Char) : Bool :=
  c = ' ' || c = '\t' || c = '\n' || c = '\r' || c = '\x0b' || c = '\x0c'

/-- Python `str.strip()`: drop leading and trailing whitespace. -/
def pyStrip (s : String) : String :=
  ⟨((s.data.dropWhile pyIsSpace).reverse.dropWhile pyIsSpace).reverse⟩

/-- ASCII lowering of one character, as `str.lower()` acts on ASCII. -/
def pyLowerChar (c : Char) : Char :=
  if 'A' ≤ c && c ≤ 'Z' then Char.ofNat (c.toNat + 32) else c

/-- Python `str.lower()` on ASCII strings. -/
def pyLower (s : String) : String :=
  ⟨s.data.map pyLowerChar⟩

/-- The canonical form `value.strip().lower()` computed by the parser. -/
def canon (s : String) : String := pyLower (pyStrip s)

/-- The true-like tokens of `_parse_bool_param` (routes.py line 41). -/
def trueTokens : List String := ["true", "1", "yes", "y", "t"]

/-- The false-like tokens of `_parse_bool_param` (routes.py line 43). -/
def falseTokens : List String := ["false", "0", "no", "n", "f"]

/-- Embedding of `_parse_bool_param` (routes.py lines 36-45): `none` input
(the parameter was absent) returns `none`; otherwise the stripped, lowered
value is compared against the true-like and false-like token lists, and any
other value returns `none`. -/
def _parse_bool_param : Option String → Option Bool
  | none => none
  | some value =>
    let val := canon value
    if val ∈ trueTokens then some true
    else if val ∈ falseTokens then some false
    else none

/-- Embedding of `check_content_type` (routes.py lines 17-33).  The header
argument is the request's `Content-Type` header (`none` when absent).  Returns
the server-side log messages emitted and the handler outcome. -/
def check_content_type (content_type : String) (header : Option String) :
    List String × HandlerResult Unit :=
  match header with
  | none =>
    (["No Content-Type specified."],
     .error (415, "Content-Type must be " ++ content_type))
  | some actual =>
    if actual = content_type then ([], .ok ())
    else
      (["Invalid Content-Type: " ++ actual],
       .error (415, "Content-Type must be " ++ content_type))

/-- Embedding of `_get_product_or_404` (routes.py lines 48-53). -/
def _get_product_or_404 (product_id : Nat) (store : List Product) :
    HandlerResult Product :=
  match find product_id store with
  | none =>
    .error (404, "Product with id '" ++ toString product_id ++ "' was not found.")
  | some product => .ok product

/-- Embedding of `list_products` (routes.py lines 105-138): the three optional
query parameters are tried in order `name`, `category`, `available`; a
successful outcome is the HTTP 200 list of (to-be-serialized) products. -/
def list_products (name category available : Option String)
    (store : List Product) : HandlerResult (List Product) :=
  if truthy name then
    .ok (find_by_name (name.getD "") store)
  else if truthy category then
    match categoryFromName (category.getD "") with
    | none => .error (400, "Invalid category: " ++ category.getD "")
    | some category_enum => .ok (find_by_category category_enum store)
  else if available.isSome then
    match _parse_bool_param available with
    | none => .error (400, "Invalid availability: " ++ available.getD "")
    | some bool_value => .ok (find_by_availability bool_value store)
  else
    .ok store

/-- Modelled from the spec: the wire payload of a create/update request as the
entity model's `deserialize` (absent `service/models.py`) consumes it.  Each
field is `some v` when the payload carries a value of the right type for that
field and `none` when it is missing or of the wrong type (section 4.4: a
validation error arises when "a required field is missing, a field has the
wrong type ..., or `category` names an unrecognized enumerated value"). -/
structure Payload where
  id : Option Nat
  name : Option String
  description : Option String
  price : Option Rat
  available : Option Bool
  category : Option String
  deriving DecidableEq, Repr

/-- Modelled from the spec: the entity model's `deserialize` contract
(section 4.4), applied to the resolved product as in the update handler.  It
fails with a `DataValidationError` message when a required field is missing or
ill-typed or the category is unrecognized; on success it overwrites the
product's mutable fields from the payload, taking a client-supplied `id` when
one is present (the routing layer then re-pins the id, section 4.7). -/
def deserialize (product : Product) (data : Payload) :
    Except String Product :=
  match data.name, data.price, data.available, data.category with
  | some n, some pr, some av, some cs =>
    match categoryFromName cs with
    | none => .error ("Invalid category: " ++ cs)
    | some c =>
      .ok { id := data.id.getD product.id
            name := n
            description := (data.description).getD ""
            price := pr
            available := av
            category := c }
  | _, _, _, _ => .error "Invalid product: missing or ill-typed required field"

/-- Embedding of `update_products` (routes.py lines 155-172): content-type
guard, then lookup-or-404, then deserialize (400 on validation error), then
the id is forced back to the path parameter and the record persisted.  Returns
the store after the request together with the handler outcome. -/
def update_products (product_id : Nat) (header : Option String)
    (data : Payload) (store : List Product) :
    List Product × HandlerResult Product :=
  match (check_content_type "application/json" header).2 with
  | .error e => (store, .error e)
  | .ok () =>
    match _get_product_or_404 product_id store with
    | .error e => (store, .error e)
    | .ok product =>
      match deserialize product data with
      | .error msg => (store, .error (400, msg))
      | .ok updated =>
        let pinned := { updated with id := product_id }
        (updateStore pinned store, .ok pinned)

/-- Executable substring test on character lists: does `needle` occur
contiguously inside `hay`? -/
def containsSub (hay needle : List Char) : Bool :=
  match hay with
  | [] => needle.isEmpty
  | _ :: t => needle.isPrefixOf hay || containsSub t needle

/-- Executable test that `needle` occurs as a substring of `hay`, used to state
"the message names / includes the value". -/
def strIncludes (hay needle : String) : Bool :=
  containsSub hay.data needle.data

/-- A sample stored product for concrete witnesses (the spec's create scenario:
a Hat in category CLOTHS). -/
def exProduct : Product :=
  { id := 1, name := "Hat", description := "warm", price := 19,
    available := true, category := .CLOTHS }

/-- A second sample stored product, unavailable and in another category. -/
def exProduct2 : Product :=
  { id := 2, name := "Lamp", description := "", price := 5,
    available := false, category := .HOUSEWARES }

/-- A fully valid update payload that tries to hijack the id (the spec's
scenario: PUT with a payload carrying a different `id`). -/
def hijackPayload : Payload :=
  { id := some 999, name := some "Fedora", description := some "fancy",
    price := some 20, available := some true, category := some "CLOTHS" }

/-- A payload missing every required field, hence failing deserialization. -/
def invalidPayload : Payload :=
  { id := none, name := none, description := none, price := none,
    available := none, category := none }

theorem isPrefixOf_append_right (l t : List Char) : l.isPrefixOf (l ++ t) = true := by
  induction l with
  | nil => cases t <;> rfl
  | cons a as ih => simp [List.isPrefixOf, ih]

theorem containsSub_nil (hay : List Char) : containsSub hay [] = true := by
  induction hay with
  | nil => rfl
  | cons a t ih => simp [containsSub, ih, List.isPrefixOf]

theorem containsSub_append (pre needle post : List Char) :
    containsSub (pre ++ (needle ++ post)) needle = true := by
  induction pre with
  | nil =>
    cases needle with
    | nil => simpa using containsSub_nil post
    | cons c cs => simp [containsSub, isPrefixOf_append_right]
  | cons a pre ih => simp [containsSub, ih]

theorem strIncludes_append (a b c : String) : strIncludes (a ++ b ++ c) b = true := by
  rw [strIncludes, String.data_append, String.data_append, List.append_assoc]
  exact containsSub_append a.data b.data c.data

theorem strIncludes_append_right (a b : String) : strIncludes (a ++ b) b = true := by
  rw [strIncludes, String.data_append]
  have := containsSub_append a.data b.data []
  simpa using this

theorem truthy_of_ne_empty {s : String} (h : s ≠ "") : truthy (some s) = true := by
  have he : s.isEmpty = false := by
    rcases Bool.eq_false_or_eq_true s.isEmpty with hb | hb
    · exact absurd ((String.isEmpty_iff s).mp hb) h
    · exact hb
  simp [truthy, he]

/-- C4: in `list_products` at most one filter is applied, with precedence
`name` > `category` > `available` > none: when the name filter is selected the
category and available parameters are ignored, when the category filter is
selected the available parameter is ignored, and with no filter selected every
stored product is returned. -/
theorem C4_filter_precedence (name category available category2 available2 : Option String)
    (store : List Product) :
    (truthy name = true →
      list_products name category available store =
        list_products name category2 available2 store) ∧
    (truthy name = false → truthy category = true →
      list_products name category available store =
        list_products name category available2 store) ∧
    (truthy name = false → truthy category = false → available = none →
      list_products name category available store = .ok store) := by
  refine ⟨?_, ?_, ?_⟩
  · intro h
    simp [list_products, h]
  · intro h1 h2
    simp [list_products, h1, h2]
  · intro h1 h2 h3
    subst h3
    simp [list_products, h1, h2]

/-- C4 witness: concrete instances of the three precedence tiers. -/
theorem C4_filter_precedence_witness :
    (list_products (some "Hat") (some "FOOD") (some "maybe") [exProduct] =
      list_products (some "Hat") none none [exProduct]) ∧
    (list_products none (some "FOOD") (some "maybe") [exProduct] =
      list_products none (some "FOOD") none [exProduct]) ∧
    list_products none none none [exProduct] = .ok [exProduct] :=
  ⟨(C4_filter_precedence (some "Hat") (some "FOOD") (some "maybe") none none
      [exProduct]).1 (by decide),
   (C4_filter_precedence none (some "FOOD") (some "maybe") (some "FOOD") none
      [exProduct]).2.1 (by decide) (by decide),
   (C4_filter_precedence none none none none none [exProduct]).2.2 rfl rfl rfl⟩

/-- C9: an empty-string `name` query parameter is treated as if no name filter
were requested (the handler behaves exactly as with `name` absent), whereas an
empty-string `available` value is parsed and rejected with HTTP 400. -/
theorem C9_empty_name_falls_through (category available : Option String)
    (store : List Product) :
    list_products (some "") category available store =
      list_products none category available store ∧
    list_products none none (some "") store =
      .error (400, "Invalid availability: " ++ "") := by
  constructor
  · rfl
  · rfl

/-- C1 counterexample: the empty string supplied as `category` (with no name
filter) is not a recognized category name, yet the handler does not respond
with HTTP 400: it falls through and returns every stored product with
HTTP 200. -/
theorem C1_counterexample :
    categoryFromName "" = none ∧
    list_products none (some "") none [exProduct] = .ok [exProduct] := by
  constructor
  · rfl
  · rfl

/-- C1 amended: for every NON-EMPTY string s supplied as the `category` query
parameter (no name filter supplied), an unrecognized s yields HTTP 400 with a
message naming s, and a recognized s yields HTTP 200 with exactly the products
of that category (an empty-string s instead falls through to the next tier). -/
theorem C1_category_filter (s : String) (available : Option String)
    (store : List Product) (hne : s ≠ "") :
    (categoryFromName s = none →
      list_products none (some s) available store =
        .error (400, "Invalid category: " ++ s) ∧
      strIncludes ("Invalid category: " ++ s) s = true) ∧
    (∀ c, categoryFromName s = some c →
      list_products none (some s) available store = .ok (find_by_category c store) ∧
      ∀ p ∈ find_by_category c store, p.category = c) := by
  have ht := truthy_of_ne_empty hne
  have hn : truthy (none : Option String) = false := rfl
  constructor
  · intro h
    constructor
    · simp [list_products, ht, hn, h]
    · exact strIncludes_append_right "Invalid category: " s
  · intro c h
    constructor
    · simp [list_products, ht, hn, h]
    · intro p hp
      rw [find_by_category] at hp
      have h2 := (List.mem_filter.mp hp).2
      simpa using h2

/-- C1 witness: `UNKNOWN_CATEGORY` is rejected with 400 and `CLOTHS` returns
exactly the CLOTHS products. -/
theorem C1_category_filter_witness :
    list_products none (some "UNKNOWN_CATEGORY") none [exProduct] =
      .error (400, "Invalid category: " ++ "UNKNOWN_CATEGORY") ∧
    list_products none (some "CLOTHS") none [exProduct, exProduct2] =
      .ok (find_by_category .CLOTHS [exProduct, exProduct2]) :=
  ⟨((C1_category_filter "UNKNOWN_CATEGORY" none [exProduct] (by decide)).1 rfl).1,
   ((C1_category_filter "CLOTHS" none [exProduct, exProduct2] (by decide)).2
      .CLOTHS rfl).1⟩

/-- C8: when the `available` query parameter key is present (any string value,
the empty string included) and neither the name nor the category filter is
selected, an unparseable value yields HTTP 400 with a message naming the
value, and a true-parsing value yields only the products whose `available`
field is true. -/
theorem C8_available_filter (name category : Option String) (s : String)
    (store : List Product) (hname : truthy name = false)
    (hcat : truthy category = false) :
    (_parse_bool_param (some s) = none →
      list_products name category (some s) store =
        .error (400, "Invalid availability: " ++ s) ∧
      strIncludes ("Invalid availability: " ++ s) s = true) ∧
    (_parse_bool_param (some s) = some true →
      list_products name category (some s) store =
        .ok (find_by_availability true store) ∧
      ∀ p ∈ find_by_availability true store, p.available = true) := by
  constructor
  · intro h
    refine ⟨?_, strIncludes_append_right "Invalid availability: " s⟩
    simp [list_products, hname, hcat, h]
  · intro h
    refine ⟨?_, ?_⟩
    · simp [list_products, hname, hcat, h]
    · intro p hp
      rw [find_by_availability] at hp
      have h2 := (List.mem_filter.mp hp).2
      simpa using h2

/-- C8 witness: `available=maybe` yields 400 naming `maybe`; `available=true`
yields exactly the available products; also the empty-string value is present
and rejected. -/
theorem C8_available_filter_witness :
    list_products none none (some "maybe") [exProduct, exProduct2] =
      .error (400, "Invalid availability: " ++ "maybe") ∧
    list_products none none (some "true") [exProduct, exProduct2] =
      .ok (find_by_availability true [exProduct, exProduct2]) ∧
    list_products none none (some "") [exProduct, exProduct2] =
      .error (400, "Invalid availability: " ++ "") :=
  ⟨((C8_available_filter none none "maybe" [exProduct, exProduct2] rfl rfl).1
      (by decide)).1,
   ((C8_available_filter none none "true" [exProduct, exProduct2] rfl rfl).2
      (by decide)).1,
   ((C8_available_filter none none "" [exProduct, exProduct2] rfl rfl).1
      (by decide)).1⟩

/-- C3 counterexample: the parser's result for absent input does NOT differ
from its result for an invalid token: both `none` (absent) and the
unrecognized token `banana` are mapped to the same result `none`. -/
theorem C3_counterexample :
    _parse_bool_param (some "banana") = none ∧
    _parse_bool_param none = none ∧
    _parse_bool_param none = _parse_bool_param (some "banana") := by
  refine ⟨by decide, rfl, by decide⟩

/-- C3 amended: the parser maps absent input and every invalid token to the
same result `none`; the absent/invalid distinction is made by the caller,
which tests the parameter for presence before parsing: in the list handler an
absent `available` parameter falls through to the unfiltered tier (HTTP 200),
while an invalid token aborts with HTTP 400. -/
theorem C3_parser_absent_vs_invalid (s : String) (store : List Product)
    (h1 : canon s ∉ trueTokens) (h2 : canon s ∉ falseTokens) :
    _parse_bool_param (some s) = _parse_bool_param none ∧
    list_products none none (some s) store =
      .error (400, "Invalid availability: " ++ s) ∧
    list_products none none none store = .ok store := by
  have hp : _parse_bool_param (some s) = none := by
    simp [_parse_bool_param, h1, h2]
  have hn : truthy (none : Option String) = false := rfl
  refine ⟨hp, ?_, rfl⟩
  simp [list_products, hn, hp]

/-- C3 witness: the amended behavior at the invalid token `banana`. -/
theorem C3_parser_absent_vs_invalid_witness :
    _parse_bool_param (some "banana") = _parse_bool_param none ∧
    list_products none none (some "banana") [exProduct] =
      .error (400, "Invalid availability: " ++ "banana") ∧
    list_products none none none [exProduct] = .ok [exProduct] :=
  C3_parser_absent_vs_invalid "banana" [exProduct] (by decide) (by decide)

/-- C7: the boolean parser returns true exactly on the stripped-and-lowered
tokens `true, 1, yes, y, t`, false exactly on `false, 0, no, n, f`, the
invalid result `none` exactly on every other value, and its result depends
only on the stripped, lowercased form of the input (case-insensitivity and
whitespace-trimming). -/
theorem C7_parse_bool_characterization (s : String) :
    (_parse_bool_param (some s) = some true ↔ canon s ∈ trueTokens) ∧
    (_parse_bool_param (some s) = some false ↔ canon s ∈ falseTokens) ∧
    (_parse_bool_param (some s) = none ↔
      (canon s ∉ trueTokens ∧ canon s ∉ falseTokens)) ∧
    ∀ t : String, canon s = canon t →
      _parse_bool_param (some s) = _parse_bool_param (some t) := by
  have hcongr : ∀ t : String, canon s = canon t →
      _parse_bool_param (some s) = _parse_bool_param (some t) := by
    intro t ht
    simp only [_parse_bool_param]
    rw [ht]
  have disj : ∀ v : String, v ∈ trueTokens → v ∉ falseTokens := by
    intro v hv hf
    simp [trueTokens] at hv
    rcases hv with rfl | rfl | rfl | rfl | rfl <;> exact absurd hf (by decide)
  by_cases h1 : canon s ∈ trueTokens
  · have h2 : canon s ∉ falseTokens := disj _ h1
    have hval : _parse_bool_param (some s) = some true := by
      simp [_parse_bool_param, h1]
    exact ⟨by simp [hval, h1], by simp [hval, h2], by simp [hval, h1], hcongr⟩
  · by_cases h2 : canon s ∈ falseTokens
    · have hval : _parse_bool_param (some s) = some false := by
        simp [_parse_bool_param, h1, h2]
      exact ⟨by simp [hval, h1], by simp [hval, h2], by simp [hval, h2], hcongr⟩
    · have hval : _parse_bool_param (some s) = none := by
        simp [_parse_bool_param, h1, h2]
      exact ⟨by simp [hval, h1], by simp [hval, h2], by simp [hval, h1, h2], hcongr⟩

/-- C7 witness: a padded upper-case TRUE parses like `true` (to true), and
`No` parses to false. -/
theorem C7_parse_bool_characterization_witness :
    _parse_bool_param (some "  TRUE ") = some true ∧
    _parse_bool_param (some "  TRUE ") = _parse_bool_param (some "true") ∧
    _parse_bool_param (some "No") = some false :=
  ⟨((C7_parse_bool_characterization "  TRUE ").1).mpr (by decide),
   (C7_parse_bool_characterization "  TRUE ").2.2.2 "true" (by decide),
   ((C7_parse_bool_characterization "No").2.1).mpr (by decide)⟩

/-- C2 counterexample: with required type `application/json` and received type
`text/plain`, the guard aborts with 415 but the abort message is
`Content-Type must be application/json`, which does not include the actual
received content type (that appears only in the server-side log). -/
theorem C2_counterexample :
    check_content_type "application/json" (some "text/plain") =
      (["Invalid Content-Type: " ++ "text/plain"],
       .error (415, "Content-Type must be " ++ "application/json")) ∧
    strIncludes ("Content-Type must be " ++ "application/json") "text/plain" = false := by
  exact ⟨rfl, by decide⟩

/-- C2 amended: a missing header fails with 415 and a message naming the
required type; a mismatched header fails with 415 and a message naming the
required type, while the actual received content type is recorded in the
server-side error log entry; a matching header succeeds with no log and no
effect. -/
theorem C2_content_type_guard (t actual : String) :
    (check_content_type t none =
      (["No Content-Type specified."],
       .error (415, "Content-Type must be " ++ t)) ∧
     strIncludes ("Content-Type must be " ++ t) t = true) ∧
    (actual ≠ t →
      check_content_type t (some actual) =
        (["Invalid Content-Type: " ++ actual],
         .error (415, "Content-Type must be " ++ t)) ∧
      strIncludes ("Invalid Content-Type: " ++ actual) actual = true) ∧
    check_content_type t (some t) = ([], .ok ()) := by
  refine ⟨⟨rfl, strIncludes_append_right "Content-Type must be " t⟩, ?_, ?_⟩
  · intro h
    exact ⟨by simp [check_content_type, h],
      strIncludes_append_right "Invalid Content-Type: " actual⟩
  · simp [check_content_type]

/-- C2 witness: the amended guard behavior at a concrete mismatch. -/
theorem C2_content_type_guard_witness :
    check_content_type "application/json" (some "text/html") =
      (["Invalid Content-Type: " ++ "text/html"],
       .error (415, "Content-Type must be " ++ "application/json")) :=
  ((C2_content_type_guard "application/json" "text/html").2.1 (by decide)).1

/-- C5: for every existing product id, JSON update request and payload that
deserializes successfully (a payload carrying a foreign `id` included), the
update handler returns a record whose `id` equals the path parameter and
persists exactly that record. -/
theorem C5_update_pins_id (pid : Nat) (data : Payload) (store : List Product)
    (product : Product) (hfind : find pid store = some product)
    (u : Product) (hdes : deserialize product data = .ok u) :
    (update_products pid (some "application/json") data store).2 =
      .ok { u with id := pid } ∧
    ({ u with id := pid }).id = pid ∧
    (update_products pid (some "application/json") data store).1 =
      updateStore { u with id := pid } store := by
  simp [update_products, check_content_type, _get_product_or_404, hfind, hdes]

/-- C5 witness: updating product 1 with a payload whose `id` field is 999
persists and returns the record with id 1. -/
theorem C5_update_pins_id_witness :
    (update_products 1 (some "application/json") hijackPayload [exProduct]).2 =
      .ok { id := 1, name := "Fedora", description := "fancy", price := 20,
            available := true, category := .CLOTHS } ∧
    (update_products 1 (some "application/json") hijackPayload [exProduct]).1 =
      updateStore
        { id := 1, name := "Fedora", description := "fancy", price := 20,
          available := true, category := .CLOTHS } [exProduct] := by
  have h := C5_update_pins_id 1 hijackPayload [exProduct] exProduct rfl
    { id := 999, name := "Fedora", description := "fancy", price := 20,
      available := true, category := .CLOTHS } rfl
  exact ⟨h.1, h.2.2⟩

/-- C6: in the update handler, existence is resolved before the payload is
validated: a JSON request addressed to an id with no matching record yields
HTTP 404 with a message including the requested id, whatever the payload, and
the store is unchanged. -/
theorem C6_update_404_before_validation (pid : Nat) (data : Payload)
    (store : List Product) (hmiss : find pid store = none) :
    update_products pid (some "application/json") data store =
      (store,
       .error (404, "Product with id '" ++ toString pid ++ "' was not found.")) ∧
    strIncludes ("Product with id '" ++ toString pid ++ "' was not found.")
      (toString pid) = true := by
  constructor
  · simp [update_products, check_content_type, _get_product_or_404, hmiss]
  · exact strIncludes_append "Product with id '" (toString pid) "' was not found."

/-- C6 witness: updating the nonexistent id 999999 yields the 404 outcome for
a payload that would pass validation and for one that would fail it. -/
theorem C6_update_404_before_validation_witness :
    update_products 999999 (some "application/json") hijackPayload [exProduct] =
      ([exProduct],
       .error (404, "Product with id '" ++ toString 999999 ++ "' was not found.")) ∧
    update_products 999999 (some "application/json") invalidPayload [exProduct] =
      ([exProduct],
       .error (404, "Product with id '" ++ toString 999999 ++ "' was not found.")) :=
  ⟨(C6_update_404_before_validation 999999 hijackPayload [exProduct] rfl).1,
   (C6_update_404_before_validation 999999 invalidPayload [exProduct] rfl).1⟩

/-- C10: an update request whose payload fails deserialization aborts with
HTTP 400 carrying the validation message, and the store after the request is
exactly the store before it: no write occurs. -/
theorem C10_no_write_on_validation_error (pid : Nat) (data : Payload)
    (store : List Product) (product : Product)
    (hfind : find pid store = some product) (msg : String)
    (hdes : deserialize product data = .error msg) :
    update_products pid (some "application/json") data store =
      (store, .error (400, msg)) := by
  simp [update_products, check_content_type, _get_product_or_404, hfind, hdes]

/-- C10 witness: an invalid payload against the stored product 1 leaves the
store unchanged and yields 400. -/
theorem C10_no_write_on_validation_error_witness :
    update_products 1 (some "application/json") invalidPayload [exProduct] =
      ([exProduct],
       .error (400, "Invalid product: missing or ill-typed required field")) :=
  C10_no_write_on_validation_error 1 invalidPayload [exProduct] exProduct rfl
    "Invalid product: missing or ill-typed required field" rfl

end ProductStore
